import Mathlib

/-!
# Verification of the per-monitor workspace synchronizer (`MonitorWorkspaces`)

Shallow embedding of `src/widgets/workspaces.py` (class `MonitorWorkspaces`)
together with the Workspace Registry it drives.

The Registry operations (`workspace_created`, `workspace_destroyed`,
`workspace_activated`, `urgent`, and the `_buttons` membership map) live in the
external `fabric` library (`fabric.core.widgets.wm.Workspaces`), whose code is
not part of this repository; they are modelled from the spec (§4.1 Workspace
Registry contract).  All synchronizer logic (`_get_workspace_monitor`,
`_is_mine`, `on_ready`, `on_monitor`, `on_workspace`, `on_create_workspace`,
`on_destroy_workspace`, `on_move_workspace`, `on_urgent`, `do_action_next`,
`do_action_previous`, `do_button_clicked`) is translated directly from the
Python source.

Modelling conventions:
* Python exceptions are explicit: each event handler returns an `HResult`
  carrying the final Registry state (mutations made before a raise persist,
  as they do on the mutable Python object), a flag telling whether an
  exception propagated out of the handler, and the list of IPC commands sent.
* IPC replies are modelled at the decoded-JSON level.  A transport error, an
  undecodable byte reply or malformed JSON all make `json.loads(...decode())`
  raise; they are modelled uniformly as the `Except.error` case of the reply.
  Within each handler all of these failure modes are treated identically, so
  the distinction is not observable.
* JSON objects are modelled with exactly the fields the code reads, each
  optional (`none` = key absent, so a `[...]` subscript raises `KeyError`
  while `.get` substitutes a default).  Values of an unexpected JSON type
  (e.g. a non-integer `id`) are folded into the reply-level error case.
* Python `int(...)` on a string is modelled by `pyInt?`, which agrees with
  `int` on optionally signed decimal numerals (with surrounding whitespace
  stripped) and returns `none` (= raises `ValueError`) otherwise.
-/

set_option autoImplicit false

namespace JbShell

/-- A workspace as held by the Registry: integer id plus activation and
urgency flags.  Modelled from the spec: data model §3 (the `empty` flag is
styling-only and owned by the renderer, not by the synchronizer core, so it
is not part of this model). -/
structure Workspace where
  id : Int
  active : Bool
  urgent : Bool
  deriving Repr, DecidableEq

/-- The per-monitor Workspace Registry: the ordered (creation-order) sequence
of held workspaces.  Modelled from the spec: §4.1, standing in for
`fabric.core.widgets.wm.Workspaces`, which is not part of this repository. -/
abbrev Registry := List Workspace

namespace Registry

/-- Whether the Registry currently holds `i` (the Python side checks
`self._buttons.get(ws_id)`, the per-id button map whose keys mirror the held
set). -/
def holds (reg : Registry) (i : Int) : Bool :=
  reg.any (fun w => w.id == i)

/-- Modelled from the spec: `create(id)` adds `id` with
`active=false, urgent=false`; no-op if already present. -/
def create (reg : Registry) (i : Int) : Registry :=
  if reg.holds i then reg else reg ++ [⟨i, false, false⟩]

/-- Modelled from the spec: `destroy(id)` removes `id` if present; no-op
otherwise. -/
def destroy (reg : Registry) (i : Int) : Registry :=
  reg.filter (fun w => w.id != i)

/-- Modelled from the spec: `activate(id)` — if `id` is present, set its
`active=true` and clear `active` on any previously active workspace of this
Registry; if absent, a silent no-op. -/
def activate (reg : Registry) (i : Int) : Registry :=
  if reg.holds i then reg.map (fun w => { w with active := w.id == i }) else reg

/-- Modelled from the spec: `mark_urgent(id)` — if present, flag
`urgent=true` (no-op when absent). -/
def mark_urgent (reg : Registry) (i : Int) : Registry :=
  reg.map (fun w => if w.id == i then { w with urgent := true } else w)

/-- Modelled from the spec: `iterate()` — the current creation-ordered
sequence of held workspace ids. -/
def iterate (reg : Registry) : List Int :=
  reg.map (fun w => w.id)

end Registry

/-- One entry of the decoded `j/workspaces` reply, with the two fields the
code reads.  `id?` / `monitor?` are `none` when the key is absent. -/
structure WsEntry where
  id? : Option Int
  monitor? : Option String
  deriving Repr, DecidableEq

/-- The decoded `j/activeworkspace` reply object. -/
structure ActiveReply where
  id? : Option Int
  deriving Repr, DecidableEq

/-- The `workspace` field of a client object: JSON `null`, or an object
carrying an optional `id` key (`obj none` models a non-empty object that
lacks `id`, on which `raw_workspace["id"]` raises). -/
inductive WorkspaceField where
  | null
  | obj (id? : Option Int)
  deriving Repr, DecidableEq

/-- One entry of the decoded `j/clients` reply, with the two fields the code
reads. -/
structure ClientEntry where
  address? : Option String
  workspace? : Option WorkspaceField
  deriving Repr, DecidableEq

/-- The IPC world visible to one handler invocation: the decoded reply each
query command would produce right now.  `Except.error ()` is a query failure:
transport error, undecodable bytes or malformed JSON (all raise at
`json.loads(.... reply.decode())`). -/
structure Ipc where
  workspaces : Except Unit (List WsEntry)
  activeworkspace : Except Unit ActiveReply
  clients : Except Unit (List ClientEntry)
  deriving Repr

/-- The synchronizer's per-instance state: the immutable bound monitor name
and the empty-scroll policy flag (`self._monitor_name`, `self._empty_scroll`). -/
structure MonitorWorkspaces where
  monitor_name : String
  empty_scroll : Bool
  deriving Repr, DecidableEq

/-- Result of running one event handler: the Registry afterwards (mutations
made before a raise persist), whether an exception propagated out of the
handler, and the IPC commands sent during the handler. -/
structure HResult where
  reg : Registry
  exn : Bool
  cmds : List String
  deriving Repr, DecidableEq

/-- Python `int(s)` for a string `s`: strips surrounding whitespace, accepts
an optional sign followed by one or more decimal digits; `none` models the
`ValueError` raise on anything else. -/
def pyInt? (s : String) : Option Int :=
  let t := ((s.data.dropWhile Char.isWhitespace).reverse.dropWhile
    Char.isWhitespace).reverse
  let signed : Bool × List Char :=
    match t with
    | '-' :: rest => (true, rest)
    | '+' :: rest => (false, rest)
    | _ => (false, t)
  if signed.2.length > 0 && signed.2.all Char.isDigit then
    let mag : Int := Int.ofNat (signed.2.foldl (fun n c => n * 10 + (c.toNat - 48)) 0)
    some (if signed.1 then -mag else mag)
  else
    none

/-- The scan inside `_get_workspace_monitor`'s `try`: walk the decoded list,
return `ws.get("monitor", "")` of the first entry whose `id` equals `ws_id`.
An entry reached without an `id` key makes `ws["id"]` raise `KeyError`, which
the surrounding `except` turns into `None` — so the scan stops there. -/
def scanMonitor (ws_id : Int) : List WsEntry → Option String
  | [] => none
  | ws :: rest =>
    match ws.id? with
    | none => none
    | some i =>
      if i == ws_id then some (ws.monitor?.getD "") else scanMonitor ws_id rest

/-- Embedding of `MonitorWorkspaces._get_workspace_monitor`: query `j/workspaces` and scan
for the workspace's monitor; any exception (query failure or `KeyError`
during the scan) is caught and yields `None`.  Returns the resolved monitor
name (or `none`) and the commands sent. -/
def get_workspace_monitor (ipc : Ipc) (ws_id : Int) : Option String × List String :=
  match ipc.workspaces with
  | .error _ => (none, ["j/workspaces"])
  | .ok l => (scanMonitor ws_id l, ["j/workspaces"])

/-- Embedding of `MonitorWorkspaces._is_mine`: the resolved monitor compares equal to the
bound monitor name (Python `None == str` is `False`, so an unresolved monitor
is never "mine"). -/
def is_mine (self : MonitorWorkspaces) (ipc : Ipc) (ws_id : Int) :
    Bool × List String :=
  match get_workspace_monitor ipc ws_id with
  | (some m, cmds) => (m == self.monitor_name, cmds)
  | (none, cmds) => (false, cmds)

/-- The `for ws in workspaces` loop of `on_ready`: for every entry whose
`monitor` equals the bound name, `workspace_created(ws["id"])`, and if that id
equals the active id, `workspace_activated(ws["id"])`.  A missing `monitor`
or `id` key raises `KeyError` out of the handler, keeping the mutations made
so far.  Returns the Registry and whether an exception was raised. -/
def on_ready_loop (name : String) (active : Int) :
    Registry → List WsEntry → Registry × Bool
  | reg, [] => (reg, false)
  | reg, ws :: rest =>
    match ws.monitor? with
    | none => (reg, true)
    | some m =>
      if m == name then
        match ws.id? with
        | none => (reg, true)
        | some i =>
          let reg' := Registry.create reg i
          let reg'' := if i == active then Registry.activate reg' i else reg'
          on_ready_loop name active reg'' rest
      else
        on_ready_loop name active reg rest

/-- Embedding of `MonitorWorkspaces.on_ready` (the initial sync): query `j/workspaces` and
`j/activeworkspace`, then populate the Registry.  No `try`/`except` here: a
query failure, or a reply object without the expected key, raises out of the
handler. -/
def on_ready (self : MonitorWorkspaces) (ipc : Ipc) (reg : Registry) : HResult :=
  match ipc.workspaces with
  | .error _ => ⟨reg, true, ["j/workspaces"]⟩
  | .ok wss =>
    match ipc.activeworkspace with
    | .error _ => ⟨reg, true, ["j/workspaces", "j/activeworkspace"]⟩
    | .ok a =>
      match a.id? with
      | none => ⟨reg, true, ["j/workspaces", "j/activeworkspace"]⟩
      | some active =>
        let (reg', exn) := on_ready_loop self.monitor_name active reg wss
        ⟨reg', exn, ["j/workspaces", "j/activeworkspace"]⟩

/-- Embedding of `MonitorWorkspaces.on_monitor` (`focusedmonv2` events, fields
`(monitor_name, workspace_id)`): drop unless exactly 2 fields; activate the
workspace when the named monitor is the bound one.  `int(event.data[1])` runs
before the comparison, so a non-numeral second field raises either way. -/
def on_monitor (self : MonitorWorkspaces) (reg : Registry) (data : List String) :
    HResult :=
  match data with
  | [mon_name, ws_s] =>
    match pyInt? ws_s with
    | none => ⟨reg, true, []⟩
    | some ws_id =>
      if mon_name == self.monitor_name then
        ⟨Registry.activate reg ws_id, false, []⟩
      else
        ⟨reg, false, []⟩
  | _ => ⟨reg, false, []⟩

/-- Embedding of `MonitorWorkspaces.on_workspace` (`workspacev2` events, fields
`(workspace_id, name)`): drop unless exactly 2 fields; membership query, then
activate if the workspace is on the bound monitor. -/
def on_workspace (self : MonitorWorkspaces) (ipc : Ipc) (reg : Registry)
    (data : List String) : HResult :=
  match data with
  | [ws_s, _name] =>
    match pyInt? ws_s with
    | none => ⟨reg, true, []⟩
    | some ws_id =>
      match is_mine self ipc ws_id with
      | (true, cmds) => ⟨Registry.activate reg ws_id, false, cmds⟩
      | (false, cmds) => ⟨reg, false, cmds⟩
  | _ => ⟨reg, false, []⟩

/-- Embedding of `MonitorWorkspaces.on_create_workspace` (`createworkspacev2` events,
fields `(workspace_id, name)`): drop unless exactly 2 fields; membership
query, then create if the workspace is on the bound monitor. -/
def on_create_workspace (self : MonitorWorkspaces) (ipc : Ipc) (reg : Registry)
    (data : List String) : HResult :=
  match data with
  | [ws_s, _name] =>
    match pyInt? ws_s with
    | none => ⟨reg, true, []⟩
    | some ws_id =>
      match is_mine self ipc ws_id with
      | (true, cmds) => ⟨Registry.create reg ws_id, false, cmds⟩
      | (false, cmds) => ⟨reg, false, cmds⟩
  | _ => ⟨reg, false, []⟩

/-- Embedding of `MonitorWorkspaces.on_destroy_workspace` (`destroyworkspacev2` events,
fields `(workspace_id, name)`): drop unless exactly 2 fields; destroy
whenever the Registry currently holds the id (`self._buttons.get(ws_id)`),
with no membership query at all. -/
def on_destroy_workspace (reg : Registry) (data : List String) : HResult :=
  match data with
  | [ws_s, _name] =>
    match pyInt? ws_s with
    | none => ⟨reg, true, []⟩
    | some ws_id =>
      if reg.holds ws_id then
        ⟨Registry.destroy reg ws_id, false, []⟩
      else
        ⟨reg, false, []⟩
  | _ => ⟨reg, false, []⟩

/-- Embedding of `MonitorWorkspaces.on_move_workspace` (`moveworkspacev2` events, fields
`(workspace_id, target_monitor)`): drop unless exactly 2 fields; create when
the target is the bound monitor, else destroy when currently held. -/
def on_move_workspace (self : MonitorWorkspaces) (reg : Registry)
    (data : List String) : HResult :=
  match data with
  | [ws_s, target_mon] =>
    match pyInt? ws_s with
    | none => ⟨reg, true, []⟩
    | some ws_id =>
      if target_mon == self.monitor_name then
        ⟨Registry.create reg ws_id, false, []⟩
      else if reg.holds ws_id then
        ⟨Registry.destroy reg ws_id, false, []⟩
      else
        ⟨reg, false, []⟩
  | _ => ⟨reg, false, []⟩

/-- Lookup in the dict comprehension `{client["address"]: client ...}`:
later entries override earlier ones, so the lookup finds the last entry
carrying the address. -/
def lookupClient (addr : String) (cs : List ClientEntry) : Option ClientEntry :=
  cs.reverse.find? (fun c => c.address? == some addr)

/-- Embedding of `MonitorWorkspaces.on_urgent` (`urgent` events, fields
`(client_address,)`): drop unless exactly 1 field; query `j/clients` (no
`try`/`except`, so a failure raises), build the address→client map (raising
if any client lacks `address`), look up `"0x" + event.data[0]`, silently
drop when the client is unknown or its `workspace` field is absent/`null`
(falsy), then flag urgency when the Registry holds the resolved id. -/
def on_urgent (ipc : Ipc) (reg : Registry) (data : List String) : HResult :=
  match data with
  | [addr] =>
    match ipc.clients with
    | .error _ => ⟨reg, true, ["j/clients"]⟩
    | .ok cs =>
      if cs.any (fun c => c.address? == none) then
        ⟨reg, true, ["j/clients"]⟩
      else
        match lookupClient ("0x" ++ addr) cs with
        | none => ⟨reg, false, ["j/clients"]⟩
        | some c =>
          match c.workspace? with
          | none => ⟨reg, false, ["j/clients"]⟩
          | some .null => ⟨reg, false, ["j/clients"]⟩
          | some (.obj none) => ⟨reg, true, ["j/clients"]⟩
          | some (.obj (some ws_id)) =>
            if reg.holds ws_id then
              ⟨Registry.mark_urgent reg ws_id, false, ["j/clients"]⟩
            else
              ⟨reg, false, ["j/clients"]⟩
  | _ => ⟨reg, false, []⟩

/-- Embedding of `MonitorWorkspaces.do_action_next`: the IPC command dispatched when the
user scrolls forward. -/
def do_action_next (self : MonitorWorkspaces) : String :=
  "batch/dispatch workspace " ++ (if !self.empty_scroll then "e" else "") ++ "+1"

/-- Embedding of `MonitorWorkspaces.do_action_previous`: the IPC command dispatched when
the user scrolls backward. -/
def do_action_previous (self : MonitorWorkspaces) : String :=
  "batch/dispatch workspace " ++ (if !self.empty_scroll then "e" else "") ++ "-1"

/-- Embedding of `MonitorWorkspaces.do_button_clicked`: the IPC command dispatched when
the button for workspace `button_id` is clicked. -/
def do_button_clicked (button_id : Int) : String :=
  "batch/dispatch workspace " ++ toString button_id

/-- Number of workspaces currently flagged `active` in a Registry. -/
def activeCount (reg : Registry) : Nat :=
  reg.countP (fun w => w.active)

/-! ## Helper lemmas -/

theorem get_workspace_monitor_cmds (ipc : Ipc) (i : Int) :
    (get_workspace_monitor ipc i).2 = ["j/workspaces"] := by
  unfold get_workspace_monitor
  cases ipc.workspaces <;> rfl

theorem is_mine_eq (self : MonitorWorkspaces) (ipc : Ipc) (i : Int) :
    is_mine self ipc i =
      (decide ((get_workspace_monitor ipc i).1 = some self.monitor_name),
        ["j/workspaces"]) := by
  unfold is_mine
  rcases h : get_workspace_monitor ipc i with ⟨m?, cmds⟩
  have hc : cmds = ["j/workspaces"] := by
    have h2 := get_workspace_monitor_cmds ipc i
    rw [h] at h2
    exact h2
  subst hc
  rcases m? with _ | m
  · simp
  · by_cases hm : m = self.monitor_name <;> simp [hm]

theorem get_workspace_monitor_error (ipc : Ipc) (i : Int)
    (hw : ipc.workspaces = .error ()) :
    (get_workspace_monitor ipc i).1 = none := by
  unfold get_workspace_monitor
  rw [hw]

theorem on_workspace_eq (self : MonitorWorkspaces) (ipc : Ipc) (reg : Registry)
    (s n : String) (i : Int) (hint : pyInt? s = some i) :
    on_workspace self ipc reg [s, n] =
      ⟨if (get_workspace_monitor ipc i).1 = some self.monitor_name then
          Registry.activate reg i
        else reg,
        false, ["j/workspaces"]⟩ := by
  simp only [on_workspace, hint, is_mine_eq]
  by_cases hb : (get_workspace_monitor ipc i).1 = some self.monitor_name <;>
    simp [hb]

theorem on_create_workspace_eq (self : MonitorWorkspaces) (ipc : Ipc)
    (reg : Registry) (s n : String) (i : Int) (hint : pyInt? s = some i) :
    on_create_workspace self ipc reg [s, n] =
      ⟨if (get_workspace_monitor ipc i).1 = some self.monitor_name then
          Registry.create reg i
        else reg,
        false, ["j/workspaces"]⟩ := by
  simp only [on_create_workspace, hint, is_mine_eq]
  by_cases hb : (get_workspace_monitor ipc i).1 = some self.monitor_name <;>
    simp [hb]

/-! ## Claim theorems -/

/-- C1 (counterexample): the claim says every IPC query failure is caught and
no exception propagates out of any handler, explicitly including the initial
sync (`on_ready`).  But `on_ready` has no `try`/`except`: with a failing
`j/workspaces` query, the handler raises. -/
theorem C1_counterexample :
    (on_ready ⟨"DP-1", false⟩ ⟨.error (), .error (), .error ()⟩ []).exn = true := by
  rfl

/-- C1 (amended): a failure of the membership query (`_get_workspace_monitor`)
is caught and treated as no information — `on_workspace` and
`on_create_workspace` finish without raising and leave the Registry
unchanged.  But a query failure in `on_ready` (either query) or in
`on_urgent` raises out of the handler; the Registry is unchanged at the
raise point in all these cases. -/
theorem C1_amended_ipc_failure (self : MonitorWorkspaces) (ipc : Ipc)
    (reg : Registry) (s n : String) (i : Int) (hint : pyInt? s = some i) :
    (ipc.workspaces = .error () →
      on_workspace self ipc reg [s, n] = ⟨reg, false, ["j/workspaces"]⟩ ∧
      on_create_workspace self ipc reg [s, n] = ⟨reg, false, ["j/workspaces"]⟩ ∧
      on_ready self ipc reg = ⟨reg, true, ["j/workspaces"]⟩) ∧
    (∀ wss, ipc.workspaces = .ok wss → ipc.activeworkspace = .error () →
      on_ready self ipc reg = ⟨reg, true, ["j/workspaces", "j/activeworkspace"]⟩) ∧
    (ipc.clients = .error () →
      on_urgent ipc reg [s] = ⟨reg, true, ["j/clients"]⟩) := by
  refine ⟨fun hw => ⟨?_, ?_, ?_⟩, fun wss hw ha => ?_, fun hc => ?_⟩
  · rw [on_workspace_eq self ipc reg s n i hint,
      get_workspace_monitor_error ipc i hw]
    simp
  · rw [on_create_workspace_eq self ipc reg s n i hint,
      get_workspace_monitor_error ipc i hw]
    simp
  · simp only [on_ready, hw]
  · simp only [on_ready, hw, ha]
  · simp only [on_urgent, hc]

/-- C1 (witness). -/
theorem C1_amended_ipc_failure_witness :
    pyInt? "5" = some 5 ∧
    Ipc.workspaces ⟨.error (), .error (), .error ()⟩ = .error () ∧
    on_ready ⟨"DP-1", false⟩ ⟨.error (), .error (), .error ()⟩ []
      = ⟨[], true, ["j/workspaces"]⟩ :=
  ⟨by decide, rfl,
    ((C1_amended_ipc_failure ⟨"DP-1", false⟩ ⟨.error (), .error (), .error ()⟩
      [] "5" "x" 5 (by decide)).1 rfl).2.2⟩

/-- C2: initial-sync scenario — bound monitor "DP-1", `j/workspaces` reply
`[{id:1, monitor:"DP-1"}, {id:2, monitor:"DP-2"}]`, `j/activeworkspace`
reply `{id:1}`: afterwards the Registry holds exactly workspace 1 with
`active=true` (workspace 2 is never created), and no exception is raised. -/
theorem C2_initial_sync :
    on_ready ⟨"DP-1", false⟩
      ⟨.ok [⟨some 1, some "DP-1"⟩, ⟨some 2, some "DP-2"⟩], .ok ⟨some 1⟩, .error ()⟩
      []
      = ⟨[⟨1, true, false⟩], false, ["j/workspaces", "j/activeworkspace"]⟩ := by
  rfl

/-- C3: membership-gated creation — on a well-formed `createworkspacev2`
event, `create(id)` runs if and only if the fresh membership query resolves
the workspace's monitor to exactly the bound monitor name; when the query
fails it resolves to nothing, so the Registry is unchanged, and no exception
escapes in any case. -/
theorem C3_membership_gated_creation (self : MonitorWorkspaces) (ipc : Ipc)
    (reg : Registry) (s n : String) (i : Int) (hint : pyInt? s = some i) :
    on_create_workspace self ipc reg [s, n] =
      ⟨if (get_workspace_monitor ipc i).1 = some self.monitor_name then
          Registry.create reg i
        else reg,
        false, ["j/workspaces"]⟩ ∧
    (ipc.workspaces = .error () → (get_workspace_monitor ipc i).1 = none) := by
  exact ⟨on_create_workspace_eq self ipc reg s n i hint,
    fun hw => get_workspace_monitor_error ipc i hw⟩

/-- C3 (witness). -/
theorem C3_membership_gated_creation_witness :
    pyInt? "5" = some 5 ∧
    on_create_workspace ⟨"DP-1", false⟩
      ⟨.ok [⟨some 5, some "DP-2"⟩], .error (), .error ()⟩ [] ["5", "5"]
      = ⟨[], false, ["j/workspaces"]⟩ :=
  ⟨by decide, by
    have h := (C3_membership_gated_creation ⟨"DP-1", false⟩
      ⟨.ok [⟨some 5, some "DP-2"⟩], .error (), .error ()⟩ [] "5" "5" 5 (by decide)).1
    rw [h]
    decide⟩

/-- C4: unconditional destroy — on a well-formed `destroyworkspacev2` event,
`destroy(id)` runs exactly when the Registry currently holds the id; the
handler issues no IPC command at all (so no membership query can influence
it) and a destroy for an unheld id leaves the Registry unchanged. -/
theorem C4_unconditional_destroy (reg : Registry) (s n : String) (i : Int)
    (hint : pyInt? s = some i) :
    on_destroy_workspace reg [s, n] =
      ⟨if reg.holds i then Registry.destroy reg i else reg, false, []⟩ ∧
    (reg.holds i = false → on_destroy_workspace reg [s, n] = ⟨reg, false, []⟩) := by
  constructor
  · simp only [on_destroy_workspace, hint]
    by_cases hh : reg.holds i <;> simp [hh]
  · intro hh
    simp only [on_destroy_workspace, hint, hh]
    simp

theorem mem_iterate_create (reg : Registry) (i : Int) :
    i ∈ Registry.iterate (Registry.create reg i) := by
  unfold Registry.create
  by_cases h : reg.holds i
  · rw [if_pos h]
    unfold Registry.holds at h
    rcases List.any_eq_true.mp h with ⟨w, hw, hid⟩
    exact List.mem_map.mpr ⟨w, hw, beq_iff_eq.mp hid⟩
  · rw [if_neg h]
    unfold Registry.iterate
    exact List.mem_map.mpr ⟨⟨i, false, false⟩, by simp, rfl⟩

theorem not_mem_iterate_destroy (reg : Registry) (i : Int) :
    i ∉ Registry.iterate (Registry.destroy reg i) := by
  unfold Registry.destroy Registry.iterate
  intro h
  rcases List.mem_map.mp h with ⟨w, hw, hid⟩
  have hf := (List.mem_filter.mp hw).2
  rw [hid] at hf
  simp at hf

/-- C4 (witness). -/
theorem C4_unconditional_destroy_witness :
    pyInt? "7" = some 7 ∧
    on_destroy_workspace [⟨7, false, false⟩] ["7", "7"] = ⟨[], false, []⟩ :=
  ⟨by decide, by
    have h := (C4_unconditional_destroy [⟨7, false, false⟩] "7" "7" 7 (by decide)).1
    rw [h]
    decide⟩

/-- C5: move atomicity — on a well-formed `moveworkspacev2` event, if the
target monitor is the bound one the id is in `iterate()` afterwards; if the
target differs and the id is held it is absent from `iterate()` afterwards;
if the target differs and the id is not held the Registry is unchanged. -/
theorem C5_move_atomicity (self : MonitorWorkspaces) (reg : Registry)
    (s m : String) (i : Int) (hint : pyInt? s = some i) :
    (m = self.monitor_name →
      i ∈ Registry.iterate (on_move_workspace self reg [s, m]).reg) ∧
    (m ≠ self.monitor_name → reg.holds i = true →
      i ∉ Registry.iterate (on_move_workspace self reg [s, m]).reg) ∧
    (m ≠ self.monitor_name → reg.holds i = false →
      on_move_workspace self reg [s, m] = ⟨reg, false, []⟩) := by
  refine ⟨fun hm => ?_, fun hm hh => ?_, fun hm hh => ?_⟩
  · simp only [on_move_workspace, hint, hm]
    simpa using mem_iterate_create reg i
  · simp only [on_move_workspace, hint]
    simpa [hm, hh] using not_mem_iterate_destroy reg i
  · simp only [on_move_workspace, hint]
    simp [hm, hh]

/-- C5 (witness). -/
theorem C5_move_atomicity_witness :
    pyInt? "9" = some 9 ∧ ("DP-2" : String) ≠ "DP-1" ∧
    Registry.holds [⟨9, false, false⟩] 9 = true ∧
    9 ∉ Registry.iterate
      (on_move_workspace ⟨"DP-1", false⟩ [⟨9, false, false⟩] ["9", "DP-2"]).reg :=
  ⟨by decide, by decide, by decide,
    (C5_move_atomicity ⟨"DP-1", false⟩ [⟨9, false, false⟩] "9" "DP-2" 9
      (by decide)).2.1 (by decide) (by decide)⟩

/-- C6: arity guard — for each of the six handled event tags, an event whose
field tuple has the wrong length for its tag (2 for `workspacev2`,
`focusedmonv2`, `createworkspacev2`, `destroyworkspacev2`, `moveworkspacev2`;
1 for `urgent`) is dropped: the Registry is unchanged, no exception is
raised, and no IPC command is sent. -/
theorem C6_arity_guard (self : MonitorWorkspaces) (ipc : Ipc) (reg : Registry)
    (data : List String) :
    (data.length ≠ 2 →
      on_monitor self reg data = ⟨reg, false, []⟩ ∧
      on_workspace self ipc reg data = ⟨reg, false, []⟩ ∧
      on_create_workspace self ipc reg data = ⟨reg, false, []⟩ ∧
      on_destroy_workspace reg data = ⟨reg, false, []⟩ ∧
      on_move_workspace self reg data = ⟨reg, false, []⟩) ∧
    (data.length ≠ 1 → on_urgent ipc reg data = ⟨reg, false, []⟩) := by
  match data with
  | [] => exact ⟨fun _ => ⟨rfl, rfl, rfl, rfl, rfl⟩, fun _ => rfl⟩
  | [a] => exact ⟨fun _ => ⟨rfl, rfl, rfl, rfl, rfl⟩, fun h => absurd rfl h⟩
  | [a, b] => exact ⟨fun h => absurd rfl h, fun _ => rfl⟩
  | a :: b :: c :: l => exact ⟨fun _ => ⟨rfl, rfl, rfl, rfl, rfl⟩, fun _ => rfl⟩

/-- C6 (witness). -/
theorem C6_arity_guard_witness :
    (["a", "b", "c"] : List String).length ≠ 2 ∧
    on_monitor ⟨"DP-1", false⟩ [] ["a", "b", "c"] = ⟨[], false, []⟩ :=
  ⟨by decide,
    ((C6_arity_guard ⟨"DP-1", false⟩ ⟨.error (), .error (), .error ()⟩ []
      ["a", "b", "c"]).1 (by decide)).1⟩

/-- C7 (counterexample): in the claim's scenario the `j/clients` reply entry
has address `"abc"` and the urgent event field is `"abc"`; but the handler
looks up `"0x" + event.data[0]` = `"0xabc"` in the address map, finds
nothing, and silently drops the event — workspace 3 does not become urgent. -/
theorem C7_counterexample :
    on_urgent ⟨.error (), .error (), .ok [⟨some "abc", some (.obj (some 3))⟩]⟩
      [⟨3, false, false⟩] ["abc"]
      = ⟨[⟨3, false, false⟩], false, ["j/clients"]⟩ := by
  rfl

/-- C7 (amended): urgent resolution joins on `"0x" + field`, so with
`j/clients` = `[{address:"0xabc", workspace:{id:3}}]` and urgent event field
`"abc"`, any Registry holding workspace 3 marks it `urgent=true`; an empty
`j/clients` reply leaves any Registry unchanged without raising, and a failed
`j/clients` query leaves any Registry unchanged (the handler raises, see C1). -/
theorem C7_amended_urgent_resolution :
    (∀ reg : Registry, reg.holds 3 = true →
      on_urgent ⟨.error (), .error (), .ok [⟨some "0xabc", some (.obj (some 3))⟩]⟩
        reg ["abc"]
        = ⟨Registry.mark_urgent reg 3, false, ["j/clients"]⟩) ∧
    (∀ (ipc : Ipc) (reg : Registry) (addr : String), ipc.clients = .ok [] →
      on_urgent ipc reg [addr] = ⟨reg, false, ["j/clients"]⟩) ∧
    (∀ (ipc : Ipc) (reg : Registry) (addr : String), ipc.clients = .error () →
      on_urgent ipc reg [addr] = ⟨reg, true, ["j/clients"]⟩) := by
  refine ⟨fun reg hh => ?_, fun ipc reg addr hc => ?_, fun ipc reg addr hc => ?_⟩
  · have h1 : on_urgent
        ⟨.error (), .error (), .ok [⟨some "0xabc", some (.obj (some 3))⟩]⟩
        reg ["abc"]
        = if reg.holds 3 then ⟨Registry.mark_urgent reg 3, false, ["j/clients"]⟩
          else ⟨reg, false, ["j/clients"]⟩ := rfl
    rw [h1, if_pos hh]
  · simp only [on_urgent, hc]
    rfl
  · simp only [on_urgent, hc]

/-- C7 (witness). -/
theorem C7_amended_urgent_resolution_witness :
    Registry.holds [⟨3, false, false⟩] 3 = true ∧
    on_urgent ⟨.error (), .error (), .ok [⟨some "0xabc", some (.obj (some 3))⟩]⟩
      [⟨3, false, false⟩] ["abc"]
      = ⟨[⟨3, false, true⟩], false, ["j/clients"]⟩ := by
  refine ⟨by decide, ?_⟩
  rw [(C7_amended_urgent_resolution).1 [⟨3, false, false⟩] (by decide)]
  decide

theorem iterate_activate (reg : Registry) (i : Int) :
    Registry.iterate (Registry.activate reg i) = Registry.iterate reg := by
  unfold Registry.activate Registry.iterate
  by_cases h : reg.holds i
  · rw [if_pos h, List.map_map]
    rfl
  · rw [if_neg h]

theorem countP_id_le_one (reg : Registry) (i : Int)
    (hnd : (Registry.iterate reg).Nodup) :
    reg.countP (fun w => w.id == i) ≤ 1 := by
  induction reg with
  | nil => simp
  | cons w rest ih =>
    unfold Registry.iterate at hnd
    rw [List.map_cons, List.nodup_cons] at hnd
    rw [List.countP_cons]
    by_cases h : w.id = i
    · have hzero : rest.countP (fun w => w.id == i) = 0 := by
        rw [List.countP_eq_zero]
        intro w' hw' hbeq
        exact hnd.1 (h ▸ beq_iff_eq.mp hbeq ▸ List.mem_map_of_mem _ hw')
      simp [hzero, h]
    · have hb : (w.id == i) = false := by simpa using h
      rw [hb]
      simpa using ih hnd.2

theorem activeCount_activate_le_one (reg : Registry) (i : Int)
    (hnd : (Registry.iterate reg).Nodup) (hle : activeCount reg ≤ 1) :
    activeCount (Registry.activate reg i) ≤ 1 := by
  unfold Registry.activate
  by_cases h : reg.holds i
  · rw [if_pos h]
    unfold activeCount
    rw [List.countP_map]
    exact countP_id_le_one reg i hnd
  · rw [if_neg h]
    exact hle

theorem activate_clears_previous (reg : Registry) (i : Int)
    (hh : reg.holds i = true) :
    ∀ w ∈ Registry.activate reg i, w.active = true → w.id = i := by
  unfold Registry.activate
  rw [if_pos hh]
  intro w hw ha
  rcases List.mem_map.mp hw with ⟨w', _, rfl⟩
  exact beq_iff_eq.mp ha

theorem activeCount_foldl_activate (l : List Int) :
    ∀ reg : Registry, (Registry.iterate reg).Nodup → activeCount reg ≤ 1 →
      activeCount (l.foldl Registry.activate reg) ≤ 1 := by
  induction l with
  | nil => exact fun reg _ hle => hle
  | cons j rest ih =>
    intro reg hnd hle
    rw [List.foldl_cons]
    exact ih (Registry.activate reg j)
      (by rw [iterate_activate]; exact hnd)
      (activeCount_activate_le_one reg j hnd hle)

/-- C8: at-most-one-active invariant — on a Registry whose held ids are
distinct (as `create` guarantees) and which has at most one active
workspace, a single `activate` keeps at most one workspace active (and keeps
the held ids unchanged, hence distinct); activating a held id clears the
`active` flag of every other workspace; and therefore every sequence of
activate calls (as driven by workspace-changed, monitor-focus-changed and
initial sync) preserves "at most one active" after each call. -/
theorem C8_at_most_one_active :
    (∀ (reg : Registry) (i : Int), (Registry.iterate reg).Nodup →
      activeCount reg ≤ 1 →
      activeCount (Registry.activate reg i) ≤ 1 ∧
      Registry.iterate (Registry.activate reg i) = Registry.iterate reg) ∧
    (∀ (reg : Registry) (i : Int), reg.holds i = true →
      ∀ w ∈ Registry.activate reg i, w.active = true → w.id = i) ∧
    (∀ (l : List Int) (reg : Registry), (Registry.iterate reg).Nodup →
      activeCount reg ≤ 1 → activeCount (l.foldl Registry.activate reg) ≤ 1) :=
  ⟨fun reg i hnd hle =>
      ⟨activeCount_activate_le_one reg i hnd hle, iterate_activate reg i⟩,
    activate_clears_previous,
    activeCount_foldl_activate⟩

/-- C8 (witness). -/
theorem C8_at_most_one_active_witness :
    (Registry.iterate [⟨1, true, false⟩, ⟨2, false, false⟩]).Nodup ∧
    activeCount [⟨1, true, false⟩, ⟨2, false, false⟩] ≤ 1 ∧
    activeCount (Registry.activate [⟨1, true, false⟩, ⟨2, false, false⟩] 2) ≤ 1 :=
  ⟨by decide, by decide,
    (C8_at_most_one_active.1 [⟨1, true, false⟩, ⟨2, false, false⟩] 2
      (by decide) (by decide)).1⟩

/-- C9: user-driven actions — "next"/"previous" dispatch
`batch/dispatch workspace e+1` / `batch/dispatch workspace e-1` when the
empty-scroll flag is false and `batch/dispatch workspace +1` /
`batch/dispatch workspace -1` when it is true; clicking the button for id
`i` dispatches the absolute `batch/dispatch workspace i`. -/
theorem C9_user_actions (self : MonitorWorkspaces) (i : Int) :
    do_action_next self =
      (if self.empty_scroll then "batch/dispatch workspace +1"
        else "batch/dispatch workspace e+1") ∧
    do_action_previous self =
      (if self.empty_scroll then "batch/dispatch workspace -1"
        else "batch/dispatch workspace e-1") ∧
    do_button_clicked i = "batch/dispatch workspace " ++ toString i := by
  rcases self with ⟨nm, es⟩
  cases es <;> exact ⟨rfl, rfl, rfl⟩

theorem scanMonitor_first_match (i : Int) (l₁ l₂ : List WsEntry) (e : WsEntry)
    (h₁ : ∀ e' ∈ l₁, ∃ j, e'.id? = some j ∧ j ≠ i) (he : e.id? = some i) :
    scanMonitor i (l₁ ++ e :: l₂) = some (e.monitor?.getD "") := by
  induction l₁ with
  | nil =>
    rw [List.nil_append]
    unfold scanMonitor
    rw [he]
    simp
  | cons e' rest ih =>
    rcases h₁ e' (by simp) with ⟨j, hj, hne⟩
    have hstep : scanMonitor i ((e' :: rest) ++ e :: l₂)
        = scanMonitor i (rest ++ e :: l₂) := by
      rw [List.cons_append]
      simp only [scanMonitor, hj]
      simp [hne]
    rw [hstep]
    exact ih (fun x hx => h₁ x (List.mem_cons_of_mem e' hx))

/-- C10 (counterexample): the claim says the event is processed *whenever*
the reply contains an entry with id `n` lacking a `monitor` key; but the
scan takes the first entry with id `n`, so a reply
`[{id:5, monitor:"DP-2"}, {id:5}]` resolves to `"DP-2"` ≠ `""` and the
event for id 5 is dropped even though the second entry has id 5 and no
`monitor` key. -/
theorem C10_counterexample :
    on_create_workspace ⟨"", false⟩
      ⟨.ok [⟨some 5, some "DP-2"⟩, ⟨some 5, none⟩], .error (), .error ()⟩
      [] ["5", "x"]
      = ⟨[], false, ["j/workspaces"]⟩ := by
  rfl

/-- C10 (amended): for a Synchronizer bound to the empty string, a
workspace-changed or workspace-created event for id `n` is processed
(activate/create) whenever the *first* entry with id `n` in the membership
reply lacks a `monitor` key and every earlier entry carries an id key with a
value different from `n` (the missing `monitor` defaults to `""`, which
compares equal to the bound name). -/
theorem C10_amended_empty_monitor_default (self : MonitorWorkspaces)
    (ipc : Ipc) (reg : Registry) (s n : String) (i : Int)
    (l₁ l₂ : List WsEntry) (e : WsEntry)
    (hname : self.monitor_name = "")
    (hint : pyInt? s = some i)
    (hws : ipc.workspaces = .ok (l₁ ++ e :: l₂))
    (h₁ : ∀ e' ∈ l₁, ∃ j, e'.id? = some j ∧ j ≠ i)
    (he : e.id? = some i) (hm : e.monitor? = none) :
    on_create_workspace self ipc reg [s, n] =
      ⟨Registry.create reg i, false, ["j/workspaces"]⟩ ∧
    on_workspace self ipc reg [s, n] =
      ⟨Registry.activate reg i, false, ["j/workspaces"]⟩ := by
  have hg : (get_workspace_monitor ipc i).1 = some "" := by
    unfold get_workspace_monitor
    rw [hws]
    show scanMonitor i (l₁ ++ e :: l₂) = some ""
    rw [scanMonitor_first_match i l₁ l₂ e h₁ he, hm]
    rfl
  constructor
  · rw [on_create_workspace_eq self ipc reg s n i hint, hg, hname]
    simp
  · rw [on_workspace_eq self ipc reg s n i hint, hg, hname]
    simp

/-- C10 (witness). -/
theorem C10_amended_empty_monitor_default_witness :
    pyInt? "5" = some 5 ∧
    on_create_workspace ⟨"", false⟩
      ⟨.ok [⟨some 4, some "DP-2"⟩, ⟨some 5, none⟩], .error (), .error ()⟩
      [] ["5", "x"]
      = ⟨[⟨5, false, false⟩], false, ["j/workspaces"]⟩ := by
  refine ⟨by decide, ?_⟩
  rw [(C10_amended_empty_monitor_default ⟨"", false⟩
    ⟨.ok [⟨some 4, some "DP-2"⟩, ⟨some 5, none⟩], .error (), .error ()⟩
    [] "5" "x" 5 [⟨some 4, some "DP-2"⟩] [] ⟨some 5, none⟩
    rfl (by decide) rfl
    (by intro e' he'; simp at he'; exact ⟨4, by rw [he'], by decide⟩)
    rfl rfl).1]
  decide

end JbShell
